import Mathlib

/-!
Verification of `gis_lidar_downloader` (src/main.rs): a shallow embedding of
the identifier model, the URL composer, the grid enumeration and the
fetch-and-persist pipeline, together with theorems settling the frozen claims.

Modelling conventions:
* Rust `u32`/`u64` values are `Nat`s; the numeric parsers enforce the
  `< 2^32` / `< 2^64` bounds exactly where `str::parse` would overflow.
* Rust code that can `panic!`/`expect` is embedded with an explicit
  `panicked` outcome (`ParseResult`, `FetchOutcome.sendPanic`,
  `MainOutcome.panicked`); returning `Err` is the distinct `err` outcome.
* Response bodies are `List Nat` (byte lists); the filesystem is an
  association list from path to content, stderr a list of lines.
-/

/-- Outcome of a Rust `FromStr`-style parse: `ok` mirrors `Ok`, `err` mirrors
returning an `Err` value, and `panicked` mirrors aborting via `expect`. -/
inductive ParseResult (α : Type) where
  | ok (v : α)
  | err (msg : String)
  | panicked (msg : String)
deriving DecidableEq

/-- True exactly on the `panicked` outcome. -/
def ParseResult.isPanicked {α : Type} : ParseResult α → Bool
  | .panicked _ => true
  | _ => false

/-- True exactly on the `err` outcome (an error returned as a value). -/
def ParseResult.isErrValue {α : Type} : ParseResult α → Bool
  | .err _ => true
  | _ => false

/-- Sequencing on `ParseResult`, used to model clap parsing one flag after
another: the first `err` or `panicked` outcome is propagated. -/
def ParseResult.andThen {α β : Type} : ParseResult α → (α → ParseResult β) → ParseResult β
  | .ok v, f => f v
  | .err m, _ => .err m
  | .panicked m, _ => .panicked m

/-- `enum PointFormat { GKOT, OTR, DTM }` from src/main.rs. -/
inductive PointFormat where
  | GKOT
  | OTR
  | DTM
deriving DecidableEq, Inhabited

/-- `impl Display for PointFormat` (src/main.rs lines 19-27): the URL token. -/
def PointFormat.display : PointFormat → String
  | .GKOT => "gkot"
  | .OTR => "otr"
  | .DTM => "dmr1"

/-- Rust `str::to_lowercase`, restricted to the per-`Char` mapping. -/
def rustToLower (s : String) : String := String.mk (s.data.map Char.toLower)

/-- `impl FromStr for PointFormat` (src/main.rs lines 29-41). -/
def PointFormat.from_str (s : String) : ParseResult PointFormat :=
  let t := rustToLower s
  if t = "gkot" then .ok .GKOT
  else if t = "otr" then .ok .OTR
  else if t = "dtm" then .ok .DTM
  else .err ("Unknown point format: " ++ t)

/-- `enum FileFormat { ZLAS, LAZ, ASC }` from src/main.rs. -/
inductive FileFormat where
  | ZLAS
  | LAZ
  | ASC
deriving DecidableEq, Inhabited

/-- `impl Display for FileFormat` (src/main.rs lines 50-58). -/
def FileFormat.display : FileFormat → String
  | .ZLAS => "zlas"
  | .LAZ => "laz"
  | .ASC => "asc"

/-- `impl FromStr for FileFormat` (src/main.rs lines 60-72). -/
def FileFormat.from_str (s : String) : ParseResult FileFormat :=
  let t := rustToLower s
  if t = "zlas" then .ok .ZLAS
  else if t = "laz" then .ok .LAZ
  else if t = "asc" then .ok .ASC
  else .err ("Unknown file format: " ++ t)

/-- `struct AreaCode { letter: char, number: u32 }` from src/main.rs. -/
structure AreaCode where
  letter : Char
  number : Nat
deriving DecidableEq

instance : Inhabited AreaCode := ⟨⟨'a', 0⟩⟩

/-- `impl Display for AreaCode` (src/main.rs lines 80-84): `{letter}_{number}`. -/
def AreaCode.display (a : AreaCode) : String :=
  String.mk [a.letter] ++ "_" ++ toString a.number

/-- Value of a digit list, most significant first (all entries digits). -/
def digitsToNat (cs : List Char) : Nat :=
  cs.foldl (fun acc c => acc * 10 + (c.toNat - Char.toNat '0')) 0

/-- Rust `str::parse::<uN>()` as used in src/main.rs: an optional leading
`+`, then one or more ASCII digits, rejecting values of `bound` or more
(overflow). `none` models the `Err` that the callers turn into panics. -/
def rustParseNat (bound : Nat) (s : String) : Option Nat :=
  let cs := s.data
  let cs2 := match cs with
    | '+' :: rest => rest
    | other => other
  if cs2.isEmpty then none
  else if cs2.all Char.isDigit then
    let v := digitsToNat cs2
    if v < bound then some v else none
  else none

/-- Bound of Rust `u32`. -/
def U32_BOUND : Nat := 4294967296

/-- Bound of Rust `u64`. -/
def U64_BOUND : Nat := 18446744073709551616

/-- `impl FromStr for AreaCode` (src/main.rs lines 86-103). Both `expect`
calls are modelled as `panicked`: an empty input panics with
"Area code must have a letter", a bad numeric tail panics with
"Invalid number". On success the letter is lowercased. -/
def AreaCode.from_str (s : String) : ParseResult AreaCode :=
  match s.data with
  | [] => .panicked ("Area code must have a letter")
  | c :: rest =>
    match rustParseNat U32_BOUND (String.mk rest) with
    | some n => .ok ⟨c.toLower, n⟩
    | none => .panicked ("Invalid number")

/-- `enum CoordinateSystem { D96TM, D48GK }` from src/main.rs. -/
inductive CoordinateSystem where
  | D96TM
  | D48GK
deriving DecidableEq, Inhabited

/-- `impl Display for CoordinateSystem` (src/main.rs lines 111-118). -/
def CoordinateSystem.display : CoordinateSystem → String
  | .D96TM => "D96TM"
  | .D48GK => "D48GK"

/-- `impl FromStr for CoordinateSystem` (src/main.rs lines 120-131). -/
def CoordinateSystem.from_str (s : String) : ParseResult CoordinateSystem :=
  let t := rustToLower s
  if t = "d96tm" then .ok .D96TM
  else if t = "d48gk" then .ok .D48GK
  else .err ("Unknown coordinate system")

/-- `struct Coordinate` (src/main.rs lines 133-139): a pair of `u64`s plus
optional back-references to the coordinate system and point format. -/
structure Coordinate where
  x : Nat
  y : Nat
  system : Option CoordinateSystem
  point_format : Option PointFormat
deriving DecidableEq

instance : Inhabited Coordinate := ⟨⟨0, 0, none, none⟩⟩

/-- The two-letter filename part contributed by the coordinate system in
`impl Display for Coordinate` (src/main.rs lines 144-147). -/
def csMark : CoordinateSystem → String
  | .D96TM => "TM"
  | .D48GK => "GK"

/-- The filename part contributed by the point format in
`impl Display for Coordinate` (src/main.rs lines 149-153). -/
def pfMark : PointFormat → String
  | .GKOT => ""
  | .OTR => "R"
  | .DTM => "1"

/-- `impl Display for Coordinate` (src/main.rs lines 141-160): yields
`{cs-mark}{pf-mark}_{x}_{y}` when both back-references are set, and panics
("Coordinate system not specified", modelled as `none`) otherwise. -/
def Coordinate.display (c : Coordinate) : Option String :=
  match c.system, c.point_format with
  | some sys, some pf =>
    some (csMark sys ++ pfMark pf ++ "_" ++ toString c.x ++ "_" ++ toString c.y)
  | _, _ => none

/-- The underscore split underlying `s.split('_')` (src/main.rs line 166):
cut the char list at every underscore, keeping empty pieces. -/
def splitUnd : List Char → List (List Char)
  | [] => [[]]
  | c :: rest =>
    if c = '_' then [] :: splitUnd rest
    else
      match splitUnd rest with
      | [] => [[c]]
      | g :: gs => (c :: g) :: gs

/-- `s.split('_')` from src/main.rs line 166, as a list of the pieces. -/
def splitUnderscore (s : String) : List String := (splitUnd s.data).map String.mk

/-- `impl FromStr for Coordinate` (src/main.rs lines 162-185). The four
`expect` calls are modelled as `panicked`; only the first two pieces are
examined, any further pieces are ignored; on success both back-references
are `None`. (`split` always yields a first piece, so the
"No x coordinate" panic is unreachable and kept only for shape.) -/
def Coordinate.from_str (s : String) : ParseResult Coordinate :=
  match splitUnderscore s with
  | [] => .panicked ("No x coordinate")
  | [xs] =>
    match rustParseNat U64_BOUND xs with
    | none => .panicked ("X coordinate is not a number")
    | some _ => .panicked ("No y coordinate")
  | xs :: ys :: _ =>
    match rustParseNat U64_BOUND xs with
    | none => .panicked ("X coordinate is not a number")
    | some x =>
      match rustParseNat U64_BOUND ys with
      | none => .panicked ("Y coordinate is not a number")
      | some y => .ok ⟨x, y, none, none⟩

/-- `const CONCURRENT_REQUESTS: usize = 2;` (src/main.rs line 215). -/
def CONCURRENT_REQUESTS : Nat := 2

/-- `struct Link` (src/main.rs lines 217-232). -/
structure Link where
  url : String
  point_format : PointFormat
  file_format : FileFormat
  area_code : AreaCode
  coordinate_system : CoordinateSystem
  coordinate : Coordinate
deriving DecidableEq

instance : Inhabited Link := ⟨⟨"", default, default, default, default, default⟩⟩

/-- `Link::new` (src/main.rs lines 234-254): formats the URL
`http://gis.arso.gov.si/lidar/{pf}/{area}/{cs}/{coord}.{ff}` through the
`Display` impls. `none` models the panic inside `Coordinate`'s `Display`
when its back-references are unset. -/
def Link.new (pf : PointFormat) (ff : FileFormat) (ac : AreaCode)
    (cs : CoordinateSystem) (c : Coordinate) : Option Link :=
  (c.display).map (fun cd =>
    { url := "http://gis.arso.gov.si/lidar/" ++ pf.display ++ "/" ++ ac.display
        ++ "/" ++ cs.display ++ "/" ++ cd ++ "." ++ ff.display
      point_format := pf
      file_format := ff
      area_code := ac
      coordinate_system := cs
      coordinate := c })

/-- `Link::new` specialised to the fully-specified coordinates built in
`main` (src/main.rs lines 273-284), where both back-references are set, so
the `Display` panic cannot fire. -/
def mkLink (pf : PointFormat) (ff : FileFormat) (ac : AreaCode)
    (cs : CoordinateSystem) (x y : Nat) : Link :=
  { url := "http://gis.arso.gov.si/lidar/" ++ pf.display ++ "/" ++ ac.display
      ++ "/" ++ cs.display ++ "/"
      ++ (csMark cs ++ pfMark pf ++ "_" ++ toString x ++ "_" ++ toString y)
      ++ "." ++ ff.display
    point_format := pf
    file_format := ff
    area_code := ac
    coordinate_system := cs
    coordinate := ⟨x, y, some cs, some pf⟩ }

theorem Link.new_fully_specified (pf : PointFormat) (ff : FileFormat)
    (ac : AreaCode) (cs : CoordinateSystem) (x y : Nat) :
    Link.new pf ff ac cs ⟨x, y, some cs, some pf⟩ = some (mkLink pf ff ac cs x y) := rfl

/-- Rust `a..=b` as iterated in `main` (src/main.rs lines 271-272): the
inclusive range, empty when `a > b`. -/
def rangeIncl (a b : Nat) : List Nat := List.range' a (b + 1 - a)

/-- The nested `for x … for y` loops of `main` (src/main.rs lines 271-289):
row-major enumeration of the inclusive rectangle, `x` outer, `y` inner. -/
def gridCoords (fx fy sx sy : Nat) : List (Nat × Nat) :=
  (rangeIncl fx sx).flatMap (fun x => (rangeIncl fy sy).map (fun y => (x, y)))

/-- The local path built in the completion handler (src/main.rs lines
315-318): `output.join(format!("{x}_{y}.{point_format}"))`. -/
def outputPath (l : Link) : String :=
  "output/" ++ toString l.coordinate.x ++ "_" ++ toString l.coordinate.y
    ++ "." ++ l.point_format.display

/-- The filesystem and stderr state observed by the completion handler
(src/main.rs lines 307-327). Files are an association list from path to
byte content, in creation order; stderr is the list of emitted lines. -/
structure FsState where
  files : List (String × List Nat)
  stderrLines : List String
deriving DecidableEq

/-- `File::create` / `write_all` effect on the file table: replace the
content if the path exists, append the file otherwise. -/
def updateAssoc : List (String × List Nat) → String → List Nat → List (String × List Nat)
  | [], p, c => [(p, c)]
  | (q, d) :: rest, p, c =>
    if q = p then (q, c) :: rest else (q, d) :: updateAssoc rest p c

/-- Look a path up in the file table. -/
def getAssoc : List (String × List Nat) → String → Option (List Nat)
  | [], _ => none
  | (q, d) :: rest, p => if q = p then some d else getAssoc rest p

/-- One iteration of the `for_each` completion handler (src/main.rs lines
312-324): `pos` is the position of this body in completion order, the link
is `links[pos]`, `File::create` truncates/creates the file before the body
is examined, then either the body is written or a line goes to stderr. -/
def processOne (links : List Link) (fs : FsState) (pos : Nat)
    (body : Except String (List Nat)) : FsState :=
  let link := links.getD pos default
  let path := outputPath link
  let created : FsState := ⟨updateAssoc fs.files path [], fs.stderrLines⟩
  match body with
  | .ok b => ⟨updateAssoc created.files path b, created.stderrLines⟩
  | .error e => ⟨created.files, created.stderrLines ++ ["Got an error: " ++ e]⟩

/-- The `bodies.enumerate().for_each(…)` loop: process the bodies in the
order the stream yields them, numbering them from `pos`. -/
def writeLoop (links : List Link) : Nat → List (Except String (List Nat)) → FsState → FsState
  | _, [], fs => fs
  | pos, b :: rest, fs => writeLoop links (pos + 1) rest (processOne links fs pos b)

/-- The whole write stage (src/main.rs lines 310-326) started on the empty
filesystem, bodies given in completion order. -/
def runWriter (links : List Link) (bodies : List (Except String (List Nat))) : FsState :=
  writeLoop links 0 bodies ⟨[], []⟩

deriving instance DecidableEq for Except

/-- Result of one fetch closure (src/main.rs lines 296-303): `sendPanic`
models the `expect` on `send()` (a transport error while issuing the GET
aborts), `got` carries the result of `response.bytes()`. -/
inductive FetchOutcome where
  | sendPanic (msg : String)
  | got (body : Except String (List Nat))
deriving DecidableEq

/-- True exactly when the fetch panicked inside `send().expect(…)`. -/
def FetchOutcome.isSendPanic : FetchOutcome → Bool
  | .sendPanic _ => true
  | _ => false

/-- The body carried by a non-panicking fetch (the `sendPanic` branch is
never reached under the guard in `runPipeline`). -/
def FetchOutcome.bodyD : FetchOutcome → Except String (List Nat)
  | .got b => b
  | .sendPanic m => .error m

/-- Outcome of the fetch-and-persist stage: either the process aborts on a
`send()` panic, or the writer runs to completion. -/
inductive RunOutcome where
  | panicked (msg : String)
  | finished (fs : FsState)
deriving DecidableEq

/-- Files of a finished run (empty for an aborted run). -/
def RunOutcome.filesOf : RunOutcome → List (String × List Nat)
  | .finished fs => fs.files
  | .panicked _ => []

/-- Stderr lines of a finished run (empty for an aborted run). -/
def RunOutcome.stderrOf : RunOutcome → List String
  | .finished fs => fs.stderrLines
  | .panicked _ => []

/-- The fetch pipeline of `main` (src/main.rs lines 293-327). `fetch i` is
the outcome of the GET for submission index `i`; `order` is the order in
which `buffer_unordered` yields completions, as submission indices. A
`send()` transport error panics with the message of src/main.rs line 301
(terminating the run); otherwise the yielded bodies are written by
`writeLoop`, which pairs the `pos`-th yielded body with `links[pos]`. -/
def runPipeline (links : List Link) (fetch : Nat → FetchOutcome)
    (order : List Nat) : RunOutcome :=
  match order.find? (fun i => (fetch i).isSendPanic) with
  | some i =>
    .panicked ("Failed to get file from link " ++ (links.getD i default).url)
  | none =>
    .finished (runWriter links (order.map (fun i => (fetch i).bodyD)))

/-- The raw command-line flag values handed to clap (src/main.rs lines
187-213); `coordinate_system` already carries its default "D96TM" when the
flag is absent. -/
structure RawArgs where
  point_format : String
  file_format : String
  area_code : String
  coordinate_system : String
  first_coord : String
  second_coord : String

/-- The parsed `Args` struct (src/main.rs lines 187-213). -/
structure ParsedArgs where
  point_format : PointFormat
  file_format : FileFormat
  area_code : AreaCode
  coordinate_system : CoordinateSystem
  first_coord : Coordinate
  second_coord : Coordinate
deriving DecidableEq

/-- `Args::parse()` (src/main.rs line 263): clap parses every flag through
its `FromStr` impl; a returned `Err` becomes a usage error (non-zero exit),
a panic inside a `FromStr` aborts. Flags are parsed in field order. -/
def parseArgs (r : RawArgs) : ParseResult ParsedArgs :=
  (PointFormat.from_str r.point_format).andThen (fun pf =>
    (FileFormat.from_str r.file_format).andThen (fun ff =>
      (AreaCode.from_str r.area_code).andThen (fun ac =>
        (CoordinateSystem.from_str r.coordinate_system).andThen (fun cs =>
          (Coordinate.from_str r.first_coord).andThen (fun c1 =>
            (Coordinate.from_str r.second_coord).andThen (fun c2 =>
              .ok ⟨pf, ff, ac, cs, c1, c2⟩))))))

/-- Observable side effects of `main` before and during the pipeline. -/
inductive Event where
  | createDirAll (path : String)
  | printUrl (u : String)
deriving DecidableEq

/-- How `main` terminates. -/
inductive MainOutcome where
  | usageError (msg : String)
  | panicked (msg : String)
  | completed (fs : FsState)
deriving DecidableEq

/-- Process exit code for each termination: clap usage errors exit 2, a
Rust panic exits 101, completion exits 0. -/
def MainOutcome.exitCode : MainOutcome → Nat
  | .usageError _ => 2
  | .panicked _ => 101
  | .completed _ => 0

/-- The events emitted by `main` plus its termination. -/
structure MainResult where
  events : List Event
  outcome : MainOutcome
deriving DecidableEq

/-- `main` (src/main.rs lines 258-328): `fs::create_dir_all("output")` runs
first (line 261), `Args::parse()` only after it (line 263); then the grid is
enumerated row-major, every URL printed in enumeration order, and the fetch
pipeline runs. The assignments to `first_coord.system` /
`second_coord.system` (lines 264-265) have no observable effect (those
coordinates are never displayed) and are omitted. -/
def mainModel (r : RawArgs) (fetch : Nat → FetchOutcome) (order : List Nat) : MainResult :=
  let ev0 := [Event.createDirAll ("output")]
  match parseArgs r with
  | .err m => ⟨ev0, .usageError m⟩
  | .panicked m => ⟨ev0, .panicked m⟩
  | .ok a =>
    let links := (gridCoords a.first_coord.x a.first_coord.y
        a.second_coord.x a.second_coord.y).map
      (fun xy => mkLink a.point_format a.file_format a.area_code
        a.coordinate_system xy.1 xy.2)
    let ev1 := ev0 ++ links.map (fun l => Event.printUrl l.url)
    match runPipeline links fetch order with
    | .panicked m => ⟨ev1, .panicked m⟩
    | .finished fs => ⟨ev1, .completed fs⟩

/-- State of the `buffer_unordered(CONCURRENT_REQUESTS)` stage (src/main.rs
line 305): submission indices still pending in submission order, the
indices currently in flight, and the indices yielded so far in completion
order. -/
structure BufState where
  pending : List Nat
  inflight : List Nat
  yielded : List Nat
deriving DecidableEq

/-- Transition relation of `buffer_unordered(limit)` per the futures crate
contract: a new future may start only while fewer than `limit` are in
flight, and it is always the head of the pending queue (FIFO); any in-flight
future may complete and is then yielded. -/
inductive bufStep (limit : Nat) : BufState → BufState → Prop
  | start (i : Nat) (rest fl yd : List Nat) :
      fl.length < limit →
      bufStep limit ⟨i :: rest, fl, yd⟩ ⟨rest, fl ++ [i], yd⟩
  | complete (i : Nat) (pd fl1 fl2 yd : List Nat) :
      bufStep limit ⟨pd, fl1 ++ i :: fl2, yd⟩ ⟨pd, fl1 ++ fl2, yd ++ [i]⟩

/-- Reachability of the bounded-concurrency stage from the initial state in
which all submission indices are pending. -/
def bufReachable (limit : Nat) (inputs : List Nat) (s : BufState) : Prop :=
  Relation.ReflTransGen (bufStep limit) ⟨inputs, [], []⟩ s

/-! ### Helper lemmas about the file table and the writer fold -/

theorem getAssoc_updateAssoc_self (files : List (String × List Nat)) (p : String) (c : List Nat) :
    getAssoc (updateAssoc files p c) p = some c := by
  induction files with
  | nil => simp [updateAssoc, getAssoc]
  | cons hd tl ih =>
    obtain ⟨r, d⟩ := hd
    by_cases hrp : r = p
    · simp [updateAssoc, hrp, getAssoc]
    · simp [updateAssoc, hrp, getAssoc, ih]

theorem getAssoc_updateAssoc_preserves (files : List (String × List Nat)) (p q : String)
    (c : List Nat) (h : (getAssoc files q).isSome = true) :
    (getAssoc (updateAssoc files p c) q).isSome = true := by
  induction files with
  | nil => simp [getAssoc] at h
  | cons hd tl ih =>
    obtain ⟨r, d⟩ := hd
    simp only [getAssoc] at h
    simp only [updateAssoc]
    by_cases hrp : r = p
    · rw [if_pos hrp]
      simp only [getAssoc]
      by_cases hrq : r = q
      · rw [if_pos hrq]; rfl
      · rw [if_neg hrq]
        rw [if_neg hrq] at h
        exact h
    · rw [if_neg hrp]
      simp only [getAssoc]
      by_cases hrq : r = q
      · rw [if_pos hrq]; rfl
      · rw [if_neg hrq]
        rw [if_neg hrq] at h
        exact ih h

theorem processOne_creates (links : List Link) (fs : FsState) (pos : Nat)
    (body : Except String (List Nat)) :
    (getAssoc (processOne links fs pos body).files
      (outputPath (links.getD pos default))).isSome = true := by
  cases body with
  | ok b => simp [processOne, getAssoc_updateAssoc_self]
  | error e => simp [processOne, getAssoc_updateAssoc_self]

theorem processOne_preserves (links : List Link) (fs : FsState) (pos : Nat)
    (body : Except String (List Nat)) (q : String)
    (h : (getAssoc fs.files q).isSome = true) :
    (getAssoc (processOne links fs pos body).files q).isSome = true := by
  cases body with
  | ok b =>
    simp only [processOne]
    exact getAssoc_updateAssoc_preserves _ _ _ _ (getAssoc_updateAssoc_preserves _ _ _ _ h)
  | error e =>
    simp only [processOne]
    exact getAssoc_updateAssoc_preserves _ _ _ _ h

theorem writeLoop_preserves (links : List Link) (bodies : List (Except String (List Nat)))
    (pos : Nat) (fs : FsState) (q : String)
    (h : (getAssoc fs.files q).isSome = true) :
    (getAssoc (writeLoop links pos bodies fs).files q).isSome = true := by
  induction bodies generalizing pos fs with
  | nil => simpa [writeLoop] using h
  | cons b rest ih =>
    simp only [writeLoop]
    exact ih (pos + 1) _ (processOne_preserves links fs pos b q h)

theorem writeLoop_creates (links : List Link) (bodies : List (Except String (List Nat)))
    (pos0 : Nat) (fs : FsState) (j : Nat) (hj : j < bodies.length) :
    (getAssoc (writeLoop links pos0 bodies fs).files
      (outputPath (links.getD (pos0 + j) default))).isSome = true := by
  induction bodies generalizing pos0 fs j with
  | nil => simp at hj
  | cons b rest ih =>
    cases j with
    | zero =>
      simp only [writeLoop, Nat.add_zero]
      exact writeLoop_preserves links rest (pos0 + 1) _ _ (processOne_creates links fs pos0 b)
    | succ j =>
      simp only [writeLoop]
      have hj2 : j < rest.length := by simp at hj; omega
      have := ih (pos0 + 1) (processOne links fs pos0 b) j hj2
      rw [show pos0 + (j + 1) = pos0 + 1 + j by omega]
      exact this

/-- The stderr line produced by one body result, if any. -/
def errLine : Except String (List Nat) → Option String
  | .error e => some ("Got an error: " ++ e)
  | .ok _ => none

theorem writeLoop_stderr (links : List Link) (bodies : List (Except String (List Nat)))
    (pos : Nat) (fs : FsState) :
    (writeLoop links pos bodies fs).stderrLines
      = fs.stderrLines ++ bodies.filterMap errLine := by
  induction bodies generalizing pos fs with
  | nil => simp [writeLoop]
  | cons b rest ih =>
    simp only [writeLoop]
    rw [ih]
    cases b with
    | ok v => simp [processOne, errLine, List.filterMap_cons]
    | error e => simp [processOne, errLine, List.filterMap_cons]

/-! ### Helper lemmas about the grid enumeration -/

theorem flat_blocks_length {α β : Type} (xs : List α) (f : α → List β) (h : Nat)
    (hf : ∀ x ∈ xs, (f x).length = h) : (xs.flatMap f).length = xs.length * h := by
  induction xs with
  | nil => simp
  | cons x xs ih =>
    have hx : (f x).length = h := hf x (List.mem_cons_self x xs)
    have := ih (fun y hy => hf y (List.mem_cons_of_mem x hy))
    simp [List.flatMap_cons, List.length_append, hx, this, Nat.succ_mul]
    omega

theorem flat_blocks_getElem {α β : Type} (xs : List α) (f : α → List β) (h : Nat)
    (hh : 0 < h) (hf : ∀ x ∈ xs, (f x).length = h) (i : Nat) :
    (xs.flatMap f)[i]? = Option.bind xs[i / h]? (fun x => (f x)[i % h]?) := by
  induction xs generalizing i with
  | nil => simp
  | cons x xs ih =>
    have hx : (f x).length = h := hf x (List.mem_cons_self x xs)
    rw [List.flatMap_cons, List.getElem?_append]
    by_cases hcase : i < h
    · rw [if_pos (by omega)]
      have h1 : i / h = 0 := Nat.div_eq_of_lt hcase
      have h2 : i % h = i := Nat.mod_eq_of_lt hcase
      simp [h1, h2]
    · rw [if_neg (by omega)]
      have hih := ih (fun y hy => hf y (List.mem_cons_of_mem x hy)) (i - h)
      rw [hx, hih]
      have hi : i = (i - h) + h := by omega
      have hd : i / h = (i - h) / h + 1 := by
        conv_lhs => rw [hi]
        rw [Nat.add_div_right _ hh]
      have hm : i % h = (i - h) % h := by
        conv_lhs => rw [hi]
        rw [Nat.add_mod_right]
      rw [hd, hm]
      simp

/-! ### Concrete runs used to settle the pipeline claims -/

/-- The links of a 1x2 grid (tiles (0,0) and (0,1)) for GKOT/ZLAS/b14/D96TM. -/
def demoLinks2 : List Link :=
  (gridCoords 0 0 0 1).map (fun xy => mkLink .GKOT .ZLAS ⟨'b', 14⟩ .D96TM xy.1 xy.2)

/-- The links of a 2x2 grid (tiles (0,0),(0,1),(1,0),(1,1)). -/
def demoLinks4 : List Link :=
  (gridCoords 0 0 1 1).map (fun xy => mkLink .GKOT .ZLAS ⟨'b', 14⟩ .D96TM xy.1 xy.2)

/-- A single-tile grid (tile (0,0)). -/
def demoLinks1 : List Link :=
  (gridCoords 0 0 0 0).map (fun xy => mkLink .GKOT .ZLAS ⟨'b', 14⟩ .D96TM xy.1 xy.2)

/-- Fetch layer in which submission index `i` returns body `[i]`. -/
def demoFetchOk : Nat → FetchOutcome := fun i => .got (.ok [i])

/-- Fetch layer in which submission index 0 fails while reading the body
and every other index returns body `[i]`. -/
def demoFetchErr : Nat → FetchOutcome :=
  fun i => if i = 0 then .got (.error ("boom")) else .got (.ok [i])

/-- Fetch layer in which every `send()` fails with a transport error. -/
def demoFetchPanic : Nat → FetchOutcome := fun _ => .sendPanic ("connection error")

/-- The body results of `demoFetchErr` on the 2x2 grid in submission order. -/
def demoBodies4 : List (Except String (List Nat)) :=
  [0, 1, 2, 3].map (fun i => (demoFetchErr i).bodyD)

/-- C1: the fetch pipeline is claimed to pair every downloaded body back to
the tile that originated its request even when bodies complete out of
order. The code indexes the submission-order list `links` with the
completion rank produced by `enumerate()` on the `buffer_unordered` output,
so with the two-tile grid (0,0),(0,1), per-tile bodies `[0]` and `[1]`, and
reverse completion order, the file of tile (0,0) receives `[1]` — the body
of tile (0,1) — and vice versa: the pairing claim fails on the code. -/
theorem C1_completion_order_miswires_files :
    demoLinks2 = [mkLink .GKOT .ZLAS ⟨'b', 14⟩ .D96TM 0 0,
                  mkLink .GKOT .ZLAS ⟨'b', 14⟩ .D96TM 0 1]
    ∧ runPipeline demoLinks2 demoFetchOk [1, 0]
      = .finished ⟨[(("output/0_0.gkot"), [1]), (("output/0_1.gkot"), [0])], []⟩ := by
  decide

/-- C2 counterexample: in a 2x2 grid whose tile (0,0) fails its fetch while
reading the body, the completion handler still runs `File::create` before
inspecting the result, so four files exist — the failed tile's file is
created empty — not the claimed three; one diagnostic line goes to stderr. -/
theorem C2_failed_fetch_still_creates_file :
    (runPipeline demoLinks4 demoFetchErr [0, 1, 2, 3]).filesOf
      = [(("output/0_0.gkot"), []), (("output/0_1.gkot"), [1]),
         (("output/1_0.gkot"), [2]), (("output/1_1.gkot"), [3])]
    ∧ (((runPipeline demoLinks4 demoFetchErr [0, 1, 2, 3]).filesOf.length) == 3) = false
    ∧ getAssoc (runPipeline demoLinks4 demoFetchErr [0, 1, 2, 3]).filesOf
        ("output/0_0.gkot") = some []
    ∧ (runPipeline demoLinks4 demoFetchErr [0, 1, 2, 3]).stderrOf
      = ["Got an error: boom"] := by
  decide

/-- C2 amended: for every tile whose fetch returns a body error, the
pipeline emits the diagnostic line "Got an error: {e}" to standard error,
but it does create (truncate to empty) that tile's output file before
inspecting the result, so after the run the file exists. -/
theorem C2_amended_error_logged_file_created (links : List Link)
    (bodies : List (Except String (List Nat))) (pos : Nat) (e : String)
    (hbody : bodies[pos]? = some (Except.error e))
    (hpos : pos < links.length) :
    ("Got an error: " ++ e) ∈ (runWriter links bodies).stderrLines
    ∧ (getAssoc (runWriter links bodies).files
        (outputPath (links.getD pos default))).isSome = true := by
  constructor
  · rw [runWriter, writeLoop_stderr]
    simp only [List.nil_append]
    apply List.mem_filterMap.mpr
    refine ⟨Except.error e, ?_, rfl⟩
    obtain ⟨hlt, hget⟩ := List.getElem?_eq_some_iff.mp hbody
    exact hget ▸ List.getElem_mem hlt
  · have hlt : pos < bodies.length := (List.getElem?_eq_some_iff.mp hbody).1
    rw [runWriter]
    simpa using writeLoop_creates links bodies 0 ⟨[], []⟩ pos hlt

theorem C2_amended_error_logged_file_created_witness :
    (demoBodies4[0]? = some (Except.error ("boom")))
    ∧ 0 < demoLinks4.length
    ∧ (("Got an error: boom") ∈ (runWriter demoLinks4 demoBodies4).stderrLines
       ∧ (getAssoc (runWriter demoLinks4 demoBodies4).files
            (outputPath (demoLinks4.getD 0 default))).isSome = true) :=
  ⟨by decide, by decide,
   C2_amended_error_logged_file_created demoLinks4 demoBodies4 0 ("boom")
     (by decide) (by decide)⟩

/-- C3 counterexample: a transport error while issuing the GET goes through
`send().expect(…)`, which panics and terminates the whole run — it is not
reported-and-skipped. Concretely, on a single-tile grid a send error ends
the run with the panic message of src/main.rs line 301. -/
theorem C3_send_error_terminates_run :
    runPipeline demoLinks1 demoFetchPanic [0]
      = .panicked ("Failed to get file from link http://gis.arso.gov.si/lidar/gkot/b_14/D96TM/TM_0_0.zlas") := by
  decide

/-- C3 amended: errors surfaced while reading a response body are recovered
locally — the run still finishes, processing every remaining tile — while a
transport error while issuing the GET panics and terminates the run. -/
theorem C3_amended_body_errors_skipped_send_errors_fatal (links : List Link)
    (fetch : Nat → FetchOutcome) (order : List Nat) :
    ((∀ i ∈ order, (fetch i).isSendPanic = false) →
      runPipeline links fetch order
        = .finished (runWriter links (order.map (fun i => (fetch i).bodyD))))
    ∧ (order.any (fun i => (fetch i).isSendPanic) = true →
      ∃ i, runPipeline links fetch order
        = .panicked ("Failed to get file from link " ++ (links.getD i default).url)) := by
  constructor
  · intro h
    have hf : order.find? (fun i => (fetch i).isSendPanic) = none :=
      List.find?_eq_none.mpr (fun x hx => by simp [h x hx])
    simp [runPipeline, hf]
  · intro h
    cases hf : order.find? (fun i => (fetch i).isSendPanic) with
    | none =>
      rcases List.any_eq_true.mp h with ⟨i, hi, hp⟩
      exact absurd hp (List.find?_eq_none.mp hf i hi)
    | some i => exact ⟨i, by simp [runPipeline, hf]⟩

theorem C3_amended_body_errors_skipped_send_errors_fatal_witness :
    ((∀ i ∈ [0, 1], (demoFetchErr i).isSendPanic = false)
      ∧ runPipeline demoLinks2 demoFetchErr [0, 1]
          = .finished (runWriter demoLinks2 ([0, 1].map (fun i => (demoFetchErr i).bodyD))))
    ∧ (([0].any (fun i => (demoFetchPanic i).isSendPanic) = true)
      ∧ ∃ i, runPipeline demoLinks1 demoFetchPanic [0]
          = .panicked ("Failed to get file from link " ++ (demoLinks1.getD i default).url)) :=
  ⟨⟨by decide,
    (C3_amended_body_errors_skipped_send_errors_fatal demoLinks2 demoFetchErr [0, 1]).1 (by decide)⟩,
   ⟨by decide,
    (C3_amended_body_errors_skipped_send_errors_fatal demoLinks1 demoFetchPanic [0]).2 (by decide)⟩⟩

/-- The raw flags of the C4 scenario `-p foo …`: every flag but the point
format is well-formed. -/
def badArgs : RawArgs := ⟨("foo"), ("zlas"), ("b14"), ("D96TM"), ("1_1"), ("2_2")⟩

/-- C4 counterexample: on `-p foo` the program does exit non-zero (clap's
usage error, exit code 2), but `fs::create_dir_all("output")` has already
run — it precedes `Args::parse()` in `main` — so directory creation IS
attempted, refuting the "no creation attempted" half of the claim. -/
theorem C4_parse_failure_still_creates_dir :
    Event.createDirAll ("output") ∈ (mainModel badArgs demoFetchOk []).events
    ∧ (mainModel badArgs demoFetchOk []).outcome.exitCode = 2 := by
  decide

/-- C4 amended: on any argument-parse failure the program exits non-zero
(usage error), but creation of the output directory has already been
attempted: it is the one event emitted before parsing. -/
theorem C4_amended_parse_failure_exits_after_dir_creation (r : RawArgs)
    (fetch : Nat → FetchOutcome) (order : List Nat) (m : String)
    (h : parseArgs r = .err m) :
    (mainModel r fetch order).events = [Event.createDirAll ("output")]
    ∧ (mainModel r fetch order).outcome = .usageError m
    ∧ (mainModel r fetch order).outcome.exitCode = 2 := by
  simp [mainModel, h, MainOutcome.exitCode]

theorem C4_amended_parse_failure_exits_after_dir_creation_witness :
    parseArgs badArgs = .err ("Unknown point format: foo")
    ∧ ((mainModel badArgs demoFetchOk []).events = [Event.createDirAll ("output")]
       ∧ (mainModel badArgs demoFetchOk []).outcome
          = .usageError ("Unknown point format: foo")
       ∧ (mainModel badArgs demoFetchOk []).outcome.exitCode = 2) :=
  ⟨by decide,
   C4_amended_parse_failure_exits_after_dir_creation badArgs demoFetchOk []
     ("Unknown point format: foo") (by decide)⟩

/-- C5: for corners first=(a,c), second=(b,d) with a ≤ b and c ≤ d, the grid
enumeration has exactly (b-a+1)*(d-c+1) entries and its i-th entry is
(a + i / (d-c+1), c + i % (d-c+1)) — row-major order, x outer, y inner;
when a > b or c > d the enumeration is empty rather than swapped or an
error. -/
theorem C5_grid_enumeration (a c b d : Nat) :
    (a ≤ b → c ≤ d →
      (gridCoords a c b d).length = (b - a + 1) * (d - c + 1)
      ∧ (∀ i, i < (b - a + 1) * (d - c + 1) →
          (gridCoords a c b d)[i]? = some (a + i / (d - c + 1), c + i % (d - c + 1))))
    ∧ ((b < a ∨ d < c) → gridCoords a c b d = []) := by
  constructor
  · intro hab hcd
    have e1 : b + 1 - a = b - a + 1 := by omega
    have e2 : d + 1 - c = d - c + 1 := by omega
    have hh : 0 < d + 1 - c := by omega
    have hf : ∀ x ∈ rangeIncl a b,
        ((rangeIncl c d).map (fun y => (x, y))).length = d + 1 - c := by
      intro x _
      simp [rangeIncl, List.length_map, List.length_range']
    constructor
    · rw [gridCoords, flat_blocks_length (rangeIncl a b) _ (d + 1 - c) hf]
      rw [rangeIncl, List.length_range', e1, e2]
    · intro i hi
      have hi2 : i < (b + 1 - a) * (d + 1 - c) := by rw [e1, e2]; exact hi
      rw [gridCoords, flat_blocks_getElem (rangeIncl a b) _ (d + 1 - c) hh hf i]
      have hdiv : i / (d + 1 - c) < b + 1 - a := Nat.div_lt_of_lt_mul (by
        calc i < (b + 1 - a) * (d + 1 - c) := hi2
          _ = (d + 1 - c) * (b + 1 - a) := Nat.mul_comm _ _)
      rw [rangeIncl, List.getElem?_range' a 1 hdiv]
      simp only [Option.some_bind, List.getElem?_map, rangeIncl,
        List.getElem?_range' c 1 (Nat.mod_lt i hh), Option.map_some']
      rw [e2]
      simp [Nat.one_mul]
  · intro hbd
    cases hbd with
    | inl hba =>
      have h0 : b + 1 - a = 0 := by omega
      simp [gridCoords, rangeIncl, h0]
    | inr hdc =>
      have h0 : d + 1 - c = 0 := by omega
      apply List.eq_nil_of_length_eq_zero
      rw [gridCoords, flat_blocks_length (rangeIncl a b) _ 0
        (by intro x _; simp [rangeIncl, h0])]
      simp

theorem C5_grid_enumeration_witness :
    ((gridCoords 0 0 1 1).length = (1 - 0 + 1) * (1 - 0 + 1)
     ∧ (gridCoords 0 0 1 1)[2]? = some (0 + 2 / (1 - 0 + 1), 0 + 2 % (1 - 0 + 1)))
    ∧ gridCoords 2 0 1 5 = [] :=
  ⟨⟨((C5_grid_enumeration 0 0 1 1).1 (by decide) (by decide)).1,
    ((C5_grid_enumeration 0 0 1 1).1 (by decide) (by decide)).2 2 (by decide)⟩,
   (C5_grid_enumeration 2 0 1 5).2 (Or.inl (by decide))⟩

/-- C6: the composed URL follows
http://gis.arso.gov.si/lidar/{pf-token}/{letter}_{number}/{cs-token}/{cs-mark}{pf-mark}_{x}_{y}.{ff-token}
with the exact tokens of the spec, witnessed by the two example identifiers;
the token tables match, and `Link::new` on a fully-specified coordinate
produces exactly this URL. -/
theorem C6_url_determinism :
    (mkLink .GKOT .ZLAS ⟨'b', 14⟩ .D96TM 510 74).url
      = "http://gis.arso.gov.si/lidar/gkot/b_14/D96TM/TM_510_74.zlas"
    ∧ (mkLink .OTR .LAZ ⟨'c', 7⟩ .D48GK 100 200).url
      = "http://gis.arso.gov.si/lidar/otr/c_7/D48GK/GKR_100_200.laz"
    ∧ PointFormat.display .GKOT = "gkot"
    ∧ PointFormat.display .OTR = "otr"
    ∧ PointFormat.display .DTM = "dmr1"
    ∧ pfMark .GKOT = "" ∧ pfMark .OTR = "R" ∧ pfMark .DTM = "1"
    ∧ FileFormat.display .ZLAS = "zlas"
    ∧ FileFormat.display .LAZ = "laz"
    ∧ FileFormat.display .ASC = "asc"
    ∧ CoordinateSystem.display .D96TM = "D96TM"
    ∧ CoordinateSystem.display .D48GK = "D48GK"
    ∧ csMark .D96TM = "TM" ∧ csMark .D48GK = "GK"
    ∧ AreaCode.display ⟨'b', 14⟩ = "b_14"
    ∧ Link.new .GKOT .ZLAS ⟨'b', 14⟩ .D96TM ⟨510, 74, some .D96TM, some .GKOT⟩
      = some (mkLink .GKOT .ZLAS ⟨'b', 14⟩ .D96TM 510 74) := by
  decide

/-- C7: the local output path of a tile is output/{x}_{y}.{pf-token} — the
point-format URL token is the extension, independent of the file format;
tile (GKOT, …, (510,74)) goes to output/510_74.gkot, not .zlas. -/
theorem C7_output_filename :
    (∀ (pf : PointFormat) (ff : FileFormat) (ac : AreaCode)
       (cs : CoordinateSystem) (x y : Nat),
      outputPath (mkLink pf ff ac cs x y)
        = "output/" ++ toString x ++ "_" ++ toString y ++ "." ++ pf.display)
    ∧ outputPath (mkLink .GKOT .ZLAS ⟨'b', 14⟩ .D96TM 510 74) = "output/510_74.gkot"
    ∧ ((outputPath (mkLink .GKOT .ZLAS ⟨'b', 14⟩ .D96TM 510 74) == "output/510_74.zlas")
        = false) :=
  ⟨fun _ _ _ _ _ _ => rfl, by decide, by decide⟩

/-- C8 counterexample: a malformed numeric portion does not produce an error
value — `AreaCode`/`Coordinate` parsing goes through `expect`, which aborts
(panics) with a message instead of returning `Err`. -/
theorem C8_numeric_parse_aborts :
    AreaCode.from_str ("b1x") = .panicked ("Invalid number")
    ∧ (AreaCode.from_str ("b1x")).isErrValue = false
    ∧ Coordinate.from_str ("a_2") = .panicked ("X coordinate is not a number")
    ∧ (Coordinate.from_str ("a_2")).isErrValue = false := by
  decide

/-- C8 amended: the three enumeration parsers never abort — an unrecognized
token yields a descriptive `Err` value — while an absent `AreaCode` letter
and every malformed numeric portion of `AreaCode`/`Coordinate` abort
(panic) with a descriptive message rather than returning an error value. -/
theorem C8_amended_enum_errors_numeric_panics :
    (∀ s : String, (PointFormat.from_str s).isPanicked = false)
    ∧ (∀ s : String, (FileFormat.from_str s).isPanicked = false)
    ∧ (∀ s : String, (CoordinateSystem.from_str s).isPanicked = false)
    ∧ PointFormat.from_str ("foo") = .err ("Unknown point format: foo")
    ∧ FileFormat.from_str ("nope") = .err ("Unknown file format: nope")
    ∧ CoordinateSystem.from_str ("nope") = .err ("Unknown coordinate system")
    ∧ AreaCode.from_str ("") = .panicked ("Area code must have a letter")
    ∧ AreaCode.from_str ("b1x") = .panicked ("Invalid number")
    ∧ Coordinate.from_str ("a_2") = .panicked ("X coordinate is not a number")
    ∧ Coordinate.from_str ("1_b") = .panicked ("Y coordinate is not a number")
    ∧ Coordinate.from_str ("5") = .panicked ("No y coordinate") := by
  refine ⟨?_, ?_, ?_, by decide, by decide, by decide, by decide, by decide,
    by decide, by decide, by decide⟩
  · intro s
    simp only [PointFormat.from_str]
    split_ifs <;> rfl
  · intro s
    simp only [FileFormat.from_str]
    split_ifs <;> rfl
  · intro s
    simp only [CoordinateSystem.from_str]
    split_ifs <;> rfl

/-- C9: in every state of the bounded-concurrency stage reachable from the
initial submission queue, at most CONCURRENT_REQUESTS = 2 fetches are in
flight, and the pending identifiers are a suffix of the submission list —
they wait in FIFO order. -/
theorem C9_concurrency_bound (inputs : List Nat) (s : BufState)
    (h : bufReachable CONCURRENT_REQUESTS inputs s) :
    s.inflight.length ≤ CONCURRENT_REQUESTS ∧ s.pending <:+ inputs := by
  unfold bufReachable at h
  induction h with
  | refl => exact ⟨by simp [CONCURRENT_REQUESTS], List.suffix_refl inputs⟩
  | tail hr hstep ih =>
    cases hstep with
    | start i rest fl yd hlt =>
      refine ⟨?_, ?_⟩
      · simp only [List.length_append, List.length_cons, List.length_nil]
        omega
      · exact (List.suffix_cons i rest).trans ih.2
    | complete i pd fl1 fl2 yd =>
      refine ⟨?_, ih.2⟩
      have hlen := ih.1
      simp only [List.length_append, List.length_cons] at hlen ⊢
      omega

theorem C9_concurrency_bound_witness :
    (BufState.mk [1, 2] [0] []).inflight.length ≤ CONCURRENT_REQUESTS
    ∧ (BufState.mk [1, 2] [0] []).pending <:+ [0, 1, 2] :=
  C9_concurrency_bound [0, 1, 2] ⟨[1, 2], [0], []⟩
    (Relation.ReflTransGen.single (bufStep.start 0 [1, 2] [] [] (by decide)))

/-- C10: Coordinate parsing succeeds on any string whose first two
underscore-separated pieces parse as base-10 unsigned 64-bit integers,
silently ignoring every piece after the second. -/
theorem C10_coordinate_parse_ignores_extra (s c1 c2 : String) (rest : List String)
    (x y : Nat)
    (hs : splitUnderscore s = c1 :: c2 :: rest)
    (hx : rustParseNat U64_BOUND c1 = some x)
    (hy : rustParseNat U64_BOUND c2 = some y) :
    Coordinate.from_str s = .ok ⟨x, y, none, none⟩ := by
  simp [Coordinate.from_str, hs, hx, hy]

theorem C10_coordinate_parse_ignores_extra_witness :
    (splitUnderscore ("1_2_3") = ("1") :: ("2") :: [("3")]
     ∧ rustParseNat U64_BOUND ("1") = some 1
     ∧ rustParseNat U64_BOUND ("2") = some 2)
    ∧ Coordinate.from_str ("1_2_3") = .ok ⟨1, 2, none, none⟩ :=
  ⟨⟨by decide, by decide, by decide⟩,
   C10_coordinate_parse_ignores_extra ("1_2_3") ("1") ("2") [("3")] 1 2
     (by decide) (by decide) (by decide)⟩
